import Mathlib

/-!
Shallow embedding of the identity layer of the content-posting backend:
the auth controller (register / login / check / logout), the mongoose
User model (password hashing, serialization, token generation) and the
posts controller (ownership guard, removal).

Conventions of the embedding:
* The mongoose store is a list of user documents; the database-assigned
  object id is passed in explicitly where the driver would create one.
* bcrypt is modelled as a deterministic digest function: the claims under
  study depend only on verify(p, hash(p)) = true and on mismatching
  digests comparing unequal, not on cryptographic properties.
* jsonwebtoken is modelled per its documented behavior: sign embeds the
  payload plus iat and exp = iat + expiresIn, signing with an HMAC keyed
  by the secret, and throws when the secret is undefined or empty;
  verify rejects a wrong signature as invalid and a token whose exp has
  passed as expired.
* A Koa ctx is modelled by the response fields the handlers touch:
  status, body and the access_token cookie.
-/

/-- Model of bcrypt.hash with fixed cost: a deterministic salted digest. -/
def bcryptHash (password : String) : String :=
  "$2b$10$" ++ password

/-- Model of bcrypt.compare: digest of the candidate against the stored digest. -/
def bcryptCompare (password stored : String) : Bool :=
  bcryptHash password == stored

/-- JWT payload passed to jwt.sign by generateToken: subject id and username. -/
structure JwtPayload where
  uid : String
  username : String
deriving DecidableEq

/-- Claims embedded in a signed token: payload plus iat and exp. -/
structure JwtClaims where
  uid : String
  username : String
  iat : Nat
  exp : Nat
deriving DecidableEq

def encodeClaims (c : JwtClaims) : String :=
  c.uid ++ "." ++ c.username ++ "." ++ toString c.iat ++ "." ++ toString c.exp

/-- Model of the HMAC-class signature keyed by the process secret. -/
def hmacSign (secret payload : String) : String :=
  secret ++ "::" ++ payload

structure SignedToken where
  claims : JwtClaims
  sig : String
deriving DecidableEq

/-- jwt expiresIn of 7d in seconds. -/
def sevenDaysSeconds : Nat := 7 * 24 * 60 * 60

inductive SignResult
  | ok (t : SignedToken)
  | error
deriving DecidableEq

/-- Model of jwt.sign: throws (error) when the secret is undefined or empty,
otherwise embeds the payload with iat = now and exp = now + expiresIn and
signs the encoded claims with the secret. -/
def jwtSign (p : JwtPayload) (secret : Option String) (expiresInSec : Nat) (now : Nat) :
    SignResult :=
  match secret with
  | none => .error
  | some s =>
    if s == "" then .error
    else
      let claims : JwtClaims :=
        { uid := p.uid, username := p.username, iat := now, exp := now + expiresInSec }
      .ok { claims := claims, sig := hmacSign s (encodeClaims claims) }

inductive VerifyResult
  | ok (c : JwtClaims)
  | invalidToken
  | expired
deriving DecidableEq

/-- Model of jwt.verify at clock time now: wrong signature is invalid,
a correctly signed token whose exp has passed is expired. -/
def jwtVerify (t : SignedToken) (secret : String) (now : Nat) : VerifyResult :=
  if t.sig != hmacSign secret (encodeClaims t.claims) then .invalidToken
  else if t.claims.exp ≤ now then .expired
  else .ok t.claims

/-- A user document of the users collection: _id (as its string form),
username, hashedPassword. The UserSchema declares no unique index. -/
structure UserDoc where
  uid : String
  username : String
  hashedPassword : String
deriving DecidableEq

abbrev UserStore := List UserDoc

/-- UserSchema.statics.findByUsername: findOne on the username field. -/
def findByUsername (username : String) (s : UserStore) : Option UserDoc :=
  s.find? (fun u => u.username == username)

/-- this.toJSON(): the persisted fields of the document as a JSON object. -/
def toJSON (u : UserDoc) : List (String × String) :=
  [("_id", u.uid), ("username", u.username), ("hashedPassword", u.hashedPassword)]

/-- UserSchema.methods.serialize: toJSON with the hashedPassword key deleted. -/
def serialize (u : UserDoc) : List (String × String) :=
  (toJSON u).filter (fun kv => !(kv.fst == "hashedPassword"))

/-- UserSchema.methods.setPassword: stores the bcrypt digest of the password. -/
def setPassword (u : UserDoc) (password : String) : UserDoc :=
  { u with hashedPassword := bcryptHash password }

/-- UserSchema.methods.checkPassword: bcrypt.compare against the stored digest. -/
def checkPassword (u : UserDoc) (password : String) : Bool :=
  bcryptCompare password u.hashedPassword

/-- UserSchema.methods.generateToken: jwt.sign of the id and username,
keyed by process.env.JWT_SECRET read at call time, expiresIn 7d. -/
def generateToken (u : UserDoc) (env : String → Option String) (now : Nat) : SignResult :=
  jwtSign { uid := u.uid, username := u.username } (env "JWT_SECRET") sevenDaysSeconds now

/-- Options passed to ctx.cookies.set: maxAge in milliseconds and httpOnly. -/
structure CookieOpts where
  maxAge : Nat
  httpOnly : Bool
deriving DecidableEq

structure SetCookie where
  name : String
  token : SignedToken
  opts : CookieOpts
deriving DecidableEq

inductive Body
  | json (fields : List (String × String))
  | validationError
deriving DecidableEq

/-- The response fields of a Koa ctx that the handlers set. -/
structure Ctx where
  status : Nat
  body : Option Body
  cookie : Option SetCookie
deriving DecidableEq

def ctx400 : Ctx := { status := 400, body := some .validationError, cookie := none }

def ctx401 : Ctx := { status := 401, body := none, cookie := none }

def ctx409 : Ctx := { status := 409, body := none, cookie := none }

def ctx500 : Ctx := { status := 500, body := none, cookie := none }

/-- The cookie options used by register and login:
maxAge 1000*60*60*24*7 ms, httpOnly true. -/
def cookieOpts : CookieOpts :=
  { maxAge := 1000 * 60 * 60 * 24 * 7, httpOnly := true }

/-- The request body fields the auth controller destructures. -/
structure AuthReq where
  username : Option String
  password : Option String
deriving DecidableEq

/-- Joi username rule: alphanumeric, length 3 to 20, required. -/
def validUsername (u : String) : Bool :=
  u.data.all (fun c => c.isAlpha || c.isDigit) && decide (3 ≤ u.length) &&
    decide (u.length ≤ 20)

/-- A register or login handler returns the response ctx and the store
state after the handler ran. -/
structure AuthOut where
  ctx : Ctx
  store : UserStore
deriving DecidableEq

/-- The register handler of the current auth controller. Its first
statement initializes schema from its own binding (const schema =
schema.object().keys(...), the remnant of a joi-to-schema rename noted in
its comments), and reading a const binding inside its own initializer is a
ReferenceError: every call throws before the validation, the lookup, the
save and the cookie code, outside the try block, so every registration
request is answered 500 with the store untouched. The 409 branch, the save
and the access_token cookie code further down the handler are dead. -/
def register (_req : AuthReq) (store : UserStore) (_env : String → Option String)
    (_now : Nat) (_newId : String) : AuthOut :=
  { ctx := ctx500, store := store }

/-- The register handler of the older auth controller under
src/unnamed/part_000: working Joi validation, findByUsername with 409 on a
hit, then create, setPassword, save and the serialized user as the body.
This variant issues no token and sets no cookie. -/
def registerLegacy (req : AuthReq) (store : UserStore) (newId : String) : AuthOut :=
  match req.username, req.password with
  | some username, some password =>
    if validUsername username && !(password == "") then
      match findByUsername username store with
      | some _ => { ctx := ctx409, store := store }
      | none =>
        let user := setPassword { uid := newId, username := username, hashedPassword := "" }
          password
        { ctx := { status := 200, body := some (.json (serialize user)), cookie := none },
          store := store ++ [user] }
    else { ctx := ctx400, store := store }
  | _, _ => { ctx := ctx400, store := store }

/-- The login handler: 401 when username or password is falsy, unknown, or
the password does not verify; otherwise serialize into the body and set the
access_token cookie; a throw from jwt.sign is caught and becomes a 500. -/
def login (req : AuthReq) (store : UserStore) (env : String → Option String)
    (now : Nat) : Ctx :=
  match req.username, req.password with
  | some u, some p =>
    if u == "" || p == "" then ctx401
    else
      match findByUsername u store with
      | none => ctx401
      | some user =>
        if checkPassword user p then
          match generateToken user env now with
          | .ok tok =>
            { status := 200, body := some (.json (serialize user)),
              cookie := some { name := "access_token", token := tok, opts := cookieOpts } }
          | .error => ctx500
        else ctx401
  | _, _ => ctx401

/-- The identity the session resolver attaches to ctx.state.user. -/
structure Identity where
  uid : String
  username : String
deriving DecidableEq

def identityToJSON (u : Identity) : List (String × String) :=
  [("_id", u.uid), ("username", u.username)]

/-- Modelled from the spec: the session resolver middleware is not under
src/; per the spec it verifies the presented token and attaches the
resolved id and username identity, or marks the request anonymous. -/
def resolveSession (tok : Option SignedToken) (secret : String) (now : Nat) :
    Option Identity :=
  match tok with
  | none => none
  | some t =>
    match jwtVerify t secret now with
    | .ok c => some { uid := c.uid, username := c.username }
    | _ => none

/-- The check handler: 401 when ctx.state.user is unset, else the resolved
identity as the body. -/
def check (user : Option Identity) : Ctx :=
  match user with
  | none => ctx401
  | some u => { status := 200, body := some (.json (identityToJSON u)), cookie := none }

/-- The owner reference embedded in a post document: a raw object id
(whose toString is its hex form) and a username. -/
structure PostOwner where
  oidHex : String
  username : String
deriving DecidableEq

structure PostDoc where
  pid : String
  title : String
  postBody : String
  user : PostOwner
deriving DecidableEq

abbrev PostStore := List PostDoc

inductive GuardResult
  | next
  | forbidden
  | thrown
deriving DecidableEq

/-- The checkOwnPost middleware: destructures user and post from ctx.state
and compares post.user._id.toString() against user._id. When ctx.state.user
is undefined, reading user._id raises a TypeError that propagates out of
the middleware (thrown). -/
def checkOwnPost (user : Option Identity) (post : PostDoc) : GuardResult :=
  match user with
  | none => .thrown
  | some u => if post.user.oidHex != u.uid then .forbidden else .next

/-- Post.findByIdAndRemove: deletes the document whose _id matches, if any. -/
def findByIdAndRemove (id : String) (s : PostStore) : PostStore :=
  s.filter (fun p => !(p.pid == id))

structure RemoveOut where
  ctx : Ctx
  store : PostStore
deriving DecidableEq

/-- The remove handler of the posts controller: findByIdAndRemove then 204,
with no inspection of whether a document was found. -/
def remove (id : String) (store : PostStore) : RemoveOut :=
  { ctx := { status := 204, body := none, cookie := none },
    store := findByIdAndRemove id store }

/-!
Interleaving model for concurrent registrations through the working
register (the part_000 variant). Each such request performs two awaited
storage operations in order: the findByUsername read, then the save. Under
the event loop two in-flight requests may interleave at those await
points. The save is an unconditional insert: UserSchema declares username
as a plain String with no unique index, so the store enforces no
uniqueness.
-/

/-- One in-flight register request for a fixed username: the read result
once observed, and the final status once responded. -/
structure RegTask where
  username : String
  password : String
  newId : String
  sawExists : Option Bool
  status : Option Nat
deriving DecidableEq

/-- The awaited findByUsername step of a register request: a hit answers
409 at once, a miss is remembered for the save step. -/
def stepRead (t : RegTask) (s : UserStore) : RegTask :=
  match t.status, t.sawExists with
  | none, none =>
    if (findByUsername t.username s).isSome then
      { t with sawExists := some true, status := some 409 }
    else { t with sawExists := some false }
  | _, _ => t

/-- The awaited save step of a register request that saw no existing user:
the insert is unguarded (no unique index), so it always succeeds. -/
def stepWrite (t : RegTask) (s : UserStore) : RegTask × UserStore :=
  match t.status, t.sawExists with
  | none, some false =>
    ({ t with status := some 200 },
      s ++ [{ uid := t.newId, username := t.username,
              hashedPassword := bcryptHash t.password }])
  | _, _ => (t, s)

/-- Two concurrent register requests sharing the store. -/
structure RaceSys where
  t0 : RegTask
  t1 : RegTask
  store : UserStore
deriving DecidableEq

inductive RaceAction
  | read0
  | read1
  | write0
  | write1
deriving DecidableEq

def stepSys (sys : RaceSys) (a : RaceAction) : RaceSys :=
  match a with
  | .read0 => { sys with t0 := stepRead sys.t0 sys.store }
  | .read1 => { sys with t1 := stepRead sys.t1 sys.store }
  | .write0 =>
    let r := stepWrite sys.t0 sys.store
    { sys with t0 := r.fst, store := r.snd }
  | .write1 =>
    let r := stepWrite sys.t1 sys.store
    { sys with t1 := r.fst, store := r.snd }

def runSched (l : List RaceAction) (sys : RaceSys) : RaceSys :=
  l.foldl stepSys sys

def freshAliceTask (nid : String) : RegTask :=
  { username := "alice", password := "pw123456", newId := nid,
    sawExists := none, status := none }

/-- Two concurrent registrations of alice against an empty store. -/
def raceStart : RaceSys :=
  { t0 := freshAliceTask "id0", t1 := freshAliceTask "id1", store := [] }

/-- Concrete documents and environments used by witnesses. -/
def aliceDoc : UserDoc :=
  { uid := "id0", username := "alice", hashedPassword := bcryptHash "pw123456" }

def envDemo : String → Option String :=
  fun k => if k == "JWT_SECRET" then some "topsecret" else none

def envA : String → Option String :=
  fun k => if k == "JWT_SECRET" then some "secret1" else none

def envB : String → Option String :=
  fun k => if k == "JWT_SECRET" then some "secret2" else none

def envMissing : String → Option String := fun _ => none

def demoPost : PostDoc :=
  { pid := "p1", title := "t", postBody := "b",
    user := { oidHex := "id0", username := "alice" } }

theorem serialize_eq (u : UserDoc) :
    serialize u = [("_id", u.uid), ("username", u.username)] := rfl

theorem serialize_lacks_hash (u : UserDoc) :
    ((serialize u).any (fun kv => kv.fst == "hashedPassword")) = false := rfl

/-- True when the response body holds no hashedPassword field. -/
def bodyLacksHash (c : Ctx) : Bool :=
  match c.body with
  | none => true
  | some .validationError => true
  | some (.json fields) => !(fields.any (fun kv => kv.fst == "hashedPassword"))

/-- C1 counterexample: on an anonymous identity the ownership middleware
does not return Forbidden; destructuring user from ctx.state gives
undefined and reading user._id raises a TypeError that propagates
(an internal error response), so the claimed always-Forbidden behavior
for anonymous identities fails. -/
theorem checkOwnPost_anonymous_not_forbidden :
    checkOwnPost none demoPost = .thrown ∧ GuardResult.thrown ≠ .forbidden := by
  decide

/-- C1 (amended): for every non-anonymous resolved identity the ownership
check allows exactly when the identity id equals the string form of the
recorded owner id, and forbids exactly when they differ; an anonymous
identity makes the middleware throw rather than answer Forbidden. -/
theorem checkOwnPost_contract (u : Identity) (p : PostDoc) :
    (checkOwnPost (some u) p = .next ↔ u.uid = p.user.oidHex) ∧
    (checkOwnPost (some u) p = .forbidden ↔ u.uid ≠ p.user.oidHex) ∧
    checkOwnPost none p = .thrown := by
  have hrw : checkOwnPost (some u) p =
      if p.user.oidHex != u.uid then .forbidden else .next := rfl
  by_cases h : p.user.oidHex = u.uid
  · rw [hrw, if_neg (by simp [bne_iff_ne, h])]
    exact ⟨⟨fun _ => h.symm, fun _ => rfl⟩,
      ⟨fun hc => absurd hc (by decide), fun hc => absurd h.symm hc⟩, rfl⟩
  · rw [hrw, if_pos (bne_iff_ne.mpr h)]
    exact ⟨⟨fun hc => absurd hc (by decide), fun hc => absurd hc.symm h⟩,
      ⟨fun _ => fun he => h he.symm, fun _ => rfl⟩, rfl⟩

theorem checkOwnPost_contract_witness :
    checkOwnPost (some { uid := "id0", username := "alice" }) demoPost = .next :=
  (checkOwnPost_contract { uid := "id0", username := "alice" } demoPost).1.mpr rfl

/-- C2: under the interleaving read0, read1, write0, write1 two concurrent
registrations of the same username both observe no existing user and both
insert, so both answer success and the store ends with two documents whose
username is alice; the sequential schedule instead yields one success and
one 409. The schema declares no unique index, so nothing stops the second
insert. -/
theorem register_race_two_successes :
    (runSched [.read0, .read1, .write0, .write1] raceStart).t0.status = some 200 ∧
    (runSched [.read0, .read1, .write0, .write1] raceStart).t1.status = some 200 ∧
    ((runSched [.read0, .read1, .write0, .write1] raceStart).store.filter
      (fun u => u.username == "alice")).length = 2 ∧
    (runSched [.read0, .write0, .read1, .write1] raceStart).t0.status = some 200 ∧
    (runSched [.read0, .write0, .read1, .write1] raceStart).t1.status = some 409 := by
  decide

/-- C10: the posts remove handler answers 204 for every id, whether or not
a matching post exists, and when no post with that id exists the post
store is unchanged. -/
theorem remove_nonexistent_204 (id : String) (store : PostStore) :
    (remove id store).ctx.status = 204 ∧
    ((∀ p ∈ store, p.pid ≠ id) → (remove id store).store = store) := by
  refine ⟨rfl, fun habs => ?_⟩
  simp only [remove, findByIdAndRemove]
  rw [List.filter_eq_self]
  intro a ha
  simpa using habs a ha

theorem remove_nonexistent_204_witness :
    (remove "p9" [demoPost]).ctx.status = 204 ∧
    (remove "p9" [demoPost]).store = [demoPost] :=
  ⟨(remove_nonexistent_204 "p9" [demoPost]).1,
   (remove_nonexistent_204 "p9" [demoPost]).2 (by decide)⟩

/-- C3: on a registration for a username already in the store, the current
register never answers 409: the schema self-reference throws on every call
and the response is a 500, with the store unchanged and the Conflict branch
dead. The older register exhibits the behavior the claim states: 409 with
the store unchanged. -/
theorem register_duplicate_answers_500 :
    (register ⟨some "alice", some "anything"⟩ [aliceDoc] envDemo 0 "id1").ctx.status = 500 ∧
    (register ⟨some "alice", some "anything"⟩ [aliceDoc] envDemo 0 "id1").ctx.status ≠ 409 ∧
    (register ⟨some "alice", some "anything"⟩ [aliceDoc] envDemo 0 "id1").store = [aliceDoc] ∧
    (registerLegacy ⟨some "alice", some "anything"⟩ [aliceDoc] "id1").ctx = ctx409 ∧
    (registerLegacy ⟨some "alice", some "anything"⟩ [aliceDoc] "id1").store = [aliceDoc] := by
  decide

/-- C4: with the process secret present and nonempty, generateToken at time
now produces a signed token whose claims carry the subject id, the username,
the issue time now, and an expiry of exactly now plus seven days (a constant
of the code, not a parameter of the call); verifying that token with the
same secret succeeds with those claims at every time before the expiry and
answers expired at every time after it. -/
theorem generateToken_claims_and_expiry (u : UserDoc) (env : String → Option String)
    (s : String) (now t : Nat) (hs : env "JWT_SECRET" = some s) (hne : s ≠ "") :
    ∃ tok, generateToken u env now = .ok tok ∧
      tok.claims = { uid := u.uid, username := u.username, iat := now,
                     exp := now + 7 * 24 * 60 * 60 } ∧
      tok.claims.exp = tok.claims.iat + sevenDaysSeconds ∧
      (t < now + 7 * 24 * 60 * 60 → jwtVerify tok s t = .ok tok.claims) ∧
      (now + 7 * 24 * 60 * 60 < t → jwtVerify tok s t = .expired) := by
  have hsec : (s == "") = false := by simp [hne]
  refine ⟨{ claims := { uid := u.uid, username := u.username, iat := now,
                        exp := now + 7 * 24 * 60 * 60 },
            sig := hmacSign s (encodeClaims { uid := u.uid, username := u.username,
                                              iat := now, exp := now + 7 * 24 * 60 * 60 }) },
          ?_, rfl, rfl, ?_, ?_⟩
  · simp [generateToken, jwtSign, hs, hsec, sevenDaysSeconds]
  · intro ht
    simp only [jwtVerify, bne_self_eq_false, Bool.false_eq_true, if_false]
    rw [if_neg]
    omega
  · intro ht
    simp only [jwtVerify, bne_self_eq_false, Bool.false_eq_true, if_false]
    rw [if_pos]
    omega

theorem generateToken_claims_and_expiry_witness :
    ∃ tok, generateToken aliceDoc envDemo 0 = .ok tok ∧
      tok.claims = { uid := aliceDoc.uid, username := aliceDoc.username, iat := 0,
                     exp := 0 + 7 * 24 * 60 * 60 } ∧
      tok.claims.exp = tok.claims.iat + sevenDaysSeconds ∧
      (1 < 0 + 7 * 24 * 60 * 60 → jwtVerify tok "topsecret" 1 = .ok tok.claims) ∧
      (0 + 7 * 24 * 60 * 60 < 1 → jwtVerify tok "topsecret" 1 = .expired) :=
  generateToken_claims_and_expiry aliceDoc envDemo "topsecret" 0 1 (by decide) (by decide)

/-- C5: a login with an unknown username and a login with a known username
but a password that fails verification produce byte-for-byte the same
response: status 401, no body, no cookie. Nothing observable distinguishes
whether the username exists. -/
theorem login_unknown_user_wrong_password_same (store : UserStore)
    (env : String → Option String) (now : Nat) (u1 p1 u2 p2 : String) (w : UserDoc)
    (hu1 : u1 ≠ "") (hp1 : p1 ≠ "")
    (h1 : findByUsername u1 store = none)
    (hu2 : u2 ≠ "") (hp2 : p2 ≠ "")
    (h2 : findByUsername u2 store = some w)
    (hbad : checkPassword w p2 = false) :
    login ⟨some u1, some p1⟩ store env now = login ⟨some u2, some p2⟩ store env now ∧
    login ⟨some u1, some p1⟩ store env now = ctx401 := by
  have e1 : login ⟨some u1, some p1⟩ store env now = ctx401 := by
    simp [login, hu1, hp1, h1]
  have e2 : login ⟨some u2, some p2⟩ store env now = ctx401 := by
    simp [login, hu2, hp2, h2, hbad]
  exact ⟨e1.trans e2.symm, e1⟩

theorem login_unknown_user_wrong_password_same_witness :
    login ⟨some "bob", some "pw123456"⟩ [aliceDoc] envDemo 0 =
      login ⟨some "alice", some "wrong"⟩ [aliceDoc] envDemo 0 ∧
    login ⟨some "bob", some "pw123456"⟩ [aliceDoc] envDemo 0 = ctx401 :=
  login_unknown_user_wrong_password_same [aliceDoc] envDemo 0
    "bob" "pw123456" "alice" "wrong" aliceDoc
    (by decide) (by decide) (by decide) (by decide) (by decide) (by decide) (by decide)

/-- C6: across every input, the response body of both register variants, of
login and of the session check never carries a hashedPassword field:
serialize deletes the field, the current register answers only the 500 with
no body, and the check handler echoes only the resolved identity. -/
theorem no_password_hash_in_responses (req : AuthReq) (store : UserStore)
    (env : String → Option String) (now : Nat) (newId : String)
    (user : Option Identity) :
    bodyLacksHash (register req store env now newId).ctx = true ∧
    bodyLacksHash (registerLegacy req store newId).ctx = true ∧
    bodyLacksHash (login req store env now) = true ∧
    bodyLacksHash (check user) = true := by
  refine ⟨rfl, ?_, ?_, ?_⟩
  · rcases req with ⟨ou, op⟩
    rcases ou with _ | u <;> rcases op with _ | p
    · rfl
    · rfl
    · rfl
    · simp only [registerLegacy]
      split
      · split
        · rfl
        · rfl
      · rfl
  · rcases req with ⟨ou, op⟩
    rcases ou with _ | u <;> rcases op with _ | p
    · rfl
    · rfl
    · rfl
    · simp only [login]
      split
      · rfl
      · split
        · rfl
        · split
          · split <;> rfl
          · rfl
  · cases user <;> rfl

/-- C7: no registration in the repository ever succeeds and attaches the
access_token cookie. A valid registration of a fresh username against the
current register, with the secret present, is answered 500 with no cookie
and no save (the schema self-reference throws before the cookie code,
which is dead); the same request against the older register succeeds with
the serialized user but issues no token and sets no cookie. -/
theorem register_never_issues_cookie :
    (register ⟨some "alice", some "pw123456"⟩ [] envDemo 0 "id0").ctx.status = 500 ∧
    (register ⟨some "alice", some "pw123456"⟩ [] envDemo 0 "id0").ctx.cookie = none ∧
    (register ⟨some "alice", some "pw123456"⟩ [] envDemo 0 "id0").store = [] ∧
    (registerLegacy ⟨some "alice", some "pw123456"⟩ [] "id0").ctx.status = 200 ∧
    (registerLegacy ⟨some "alice", some "pw123456"⟩ [] "id0").ctx.cookie = none := by
  decide

/-- C8 counterexample: the token the codec produces depends on the value the
process environment holds at the moment of the call, so the secret is
fetched during request handling rather than bound once at startup; and with
the secret absent the process still serves requests: a login with valid
credentials is processed and fails 500 at request time when jwt.sign throws
inside the try block, so the process did not refuse to start. -/
theorem secret_read_at_call_time :
    generateToken aliceDoc envA 0 ≠ generateToken aliceDoc envB 0 ∧
    login ⟨some "alice", some "pw123456"⟩ [aliceDoc] envMissing 0 = ctx500 := by
  decide

/-- C8 (amended): generateToken reads JWT_SECRET from the process
environment at each call during request handling; there is no startup
check, but the sign step itself errors when the secret is undefined or
empty, so no token is ever produced with an empty or undefined secret, and
when a nonempty secret is present the token is signed with the value the
environment holds at the moment of the call. -/
theorem generateToken_secret_handling (u : UserDoc) (env : String → Option String)
    (now : Nat) :
    ((env "JWT_SECRET" = none ∨ env "JWT_SECRET" = some "") →
      generateToken u env now = .error) ∧
    (∀ s, env "JWT_SECRET" = some s → s ≠ "" →
      ∃ tok, generateToken u env now = .ok tok ∧
        tok.sig = hmacSign s (encodeClaims tok.claims)) := by
  constructor
  · rintro (h | h) <;> simp [generateToken, jwtSign, h]
  · intro s hs hne
    have hsec : (s == "") = false := by simp [hne]
    exact ⟨{ claims := { uid := u.uid, username := u.username, iat := now,
                         exp := now + sevenDaysSeconds },
             sig := hmacSign s (encodeClaims { uid := u.uid, username := u.username,
                                               iat := now, exp := now + sevenDaysSeconds }) },
           by simp [generateToken, jwtSign, hs, hsec], rfl⟩

theorem generateToken_secret_handling_witness :
    generateToken aliceDoc envMissing 0 = .error ∧
    ∃ tok, generateToken aliceDoc envA 0 = .ok tok ∧
      tok.sig = hmacSign "secret1" (encodeClaims tok.claims) :=
  ⟨(generateToken_secret_handling aliceDoc envMissing 0).1 (Or.inl rfl),
   (generateToken_secret_handling aliceDoc envA 0).2 "secret1" (by decide) (by decide)⟩

/-- Written from the words of the spec for comparison with the login code:
credentials fail when the username or password is missing from the request
(absent or empty), the username is unknown, or the password does not verify
against the stored hash. -/
def specLoginCredentialsFail (req : AuthReq) (store : UserStore) : Bool :=
  match req.username, req.password with
  | some u, some p =>
    if u == "" || p == "" then true
    else
      match findByUsername u store with
      | none => true
      | some w => !(checkPassword w p)
  | _, _ => true

/-- C9: login answers 401 exactly when the credentials fail in the sense of
the spec, and under a present nonempty process secret a login whose
credentials do not fail answers 200 with the serialized stored user as the
body. -/
theorem login_401_iff_credentials_fail (req : AuthReq) (store : UserStore)
    (env : String → Option String) (now : Nat) :
    ((login req store env now).status = 401 ↔
      specLoginCredentialsFail req store = true) ∧
    (∀ s, env "JWT_SECRET" = some s → s ≠ "" →
      specLoginCredentialsFail req store = false →
      ∃ u w, req.username = some u ∧ findByUsername u store = some w ∧
        (login req store env now).status = 200 ∧
        (login req store env now).body = some (.json (serialize w))) := by
  rcases req with ⟨ou, op⟩
  rcases ou with _ | u <;> rcases op with _ | p
  · exact ⟨by simp [login, specLoginCredentialsFail, ctx401],
      fun s hs hne hfail => by simp [specLoginCredentialsFail] at hfail⟩
  · exact ⟨by simp [login, specLoginCredentialsFail, ctx401],
      fun s hs hne hfail => by simp [specLoginCredentialsFail] at hfail⟩
  · exact ⟨by simp [login, specLoginCredentialsFail, ctx401],
      fun s hs hne hfail => by simp [specLoginCredentialsFail] at hfail⟩
  · by_cases hup : (u == "" || p == "") = true
    · refine ⟨?_, ?_⟩
      · simp [login, specLoginCredentialsFail, hup, ctx401]
      · intro s hs hne hfail
        simp [specLoginCredentialsFail, hup] at hfail
    · have hup2 : (u == "" || p == "") = false := by simpa using hup
      cases hfind : findByUsername u store with
      | none =>
        refine ⟨?_, ?_⟩
        · simp [login, specLoginCredentialsFail, hup2, hfind, ctx401]
        · intro s hs hne hfail
          simp [specLoginCredentialsFail, hup2, hfind] at hfail
      | some w =>
        by_cases hpw : checkPassword w p = true
        · refine ⟨?_, ?_⟩
          · cases hgen : generateToken w env now with
            | ok tok =>
              simp [login, specLoginCredentialsFail, hup2, hfind, hpw, hgen]
            | error =>
              simp [login, specLoginCredentialsFail, hup2, hfind, hpw, hgen, ctx500]
          · intro s hs hne hfail
            have hsec : (s == "") = false := by simp [hne]
            refine ⟨u, w, rfl, hfind, ?_, ?_⟩ <;>
              simp [login, hup2, hfind, hpw, generateToken, jwtSign, hs, hsec]
        · have hpw2 : checkPassword w p = false := by simpa using hpw
          refine ⟨?_, ?_⟩
          · simp [login, specLoginCredentialsFail, hup2, hfind, hpw2, ctx401]
          · intro s hs hne hfail
            simp [specLoginCredentialsFail, hup2, hfind, hpw2] at hfail

theorem login_401_iff_credentials_fail_witness :
    (login ⟨some "alice", some "wrong"⟩ [aliceDoc] envDemo 0).status = 401 ∧
    (∃ u w, (some "alice" : Option String) = some u ∧
      findByUsername u [aliceDoc] = some w ∧
      (login ⟨some "alice", some "pw123456"⟩ [aliceDoc] envDemo 0).status = 200 ∧
      (login ⟨some "alice", some "pw123456"⟩ [aliceDoc] envDemo 0).body =
        some (.json (serialize w))) :=
  ⟨(login_401_iff_credentials_fail ⟨some "alice", some "wrong"⟩ [aliceDoc] envDemo 0).1.mpr
      (by decide),
   (login_401_iff_credentials_fail ⟨some "alice", some "pw123456"⟩ [aliceDoc] envDemo 0).2
      "topsecret" (by decide) (by decide) (by decide)⟩
